import Mathlib

/-!
# Verification of the HackUTA RAG query-routing and fallback-chain logic

Shallow embedding of the core logic of `src/backend/rag_service.py`,
`src/backend/mortgage_kb_service.py` and `src/RAG/rag_utils.py`:

* the text chunker (`_split_text`, `split_text_into_chunks`),
* the keyword question classifier inside `RAGDocumentService.rag_query`,
* the fallback orchestrators (`RAGDocumentService.rag_query`,
  `MortgageKnowledgeBase.query`) with their web-search fallbacks,
* the TTS response cache (`MortgageKnowledgeBase.text_to_speech`),
* the chunk-indexing loops (`load_documents_from_folder`,
  `add_user_document`, `add_document`).

External collaborators (ChromaDB collections, SerpAPI, Gemini, ElevenLabs,
the md5 hash) are modelled as function parameters; a collaborator that the
Python code calls inside `try`/`except` is given return type `Except String α`
(`Except.error e` models a raised exception with message `e`).  Python
strings are modelled as `String` / `List Char`.
-/

namespace HackUTA

/-! ## Chunker: `_split_text` in `mortgage_kb_service.py` (lines 190-198) and
`rag_service.py` (lines 317-335); the two bodies are identical. -/

/-- One iteration of the `while start < len(text)` loop of `_split_text`.
`text[start:start+chunk_size]` is `(text.drop start).take cs`; the loop then
sets `start = end - chunk_overlap = start + cs - ov`.  The `fuel` argument is
an upper bound on the iteration count making the recursion structural: when
`ov < cs` each iteration advances `start` by `cs - ov ≥ 1`, so
`text.length + 1` units of fuel (as supplied by `splitText`) are never
exhausted and the model agrees with the Python loop; when `ov ≥ cs` the
Python loop diverges on non-empty text and is not modelled. -/
def splitTextGo (text : List Char) (cs ov : Nat) : Nat → Nat → List (List Char)
  | 0, _ => []
  | fuel + 1, start =>
    if start < text.length then
      ((text.drop start).take cs) :: splitTextGo text cs ov fuel (start + cs - ov)
    else
      []

/-- Embeds `_split_text(text, chunk_size, chunk_overlap)`. -/
def splitText (text : List Char) (cs ov : Nat) : List (List Char) :=
  splitTextGo text cs ov (text.length + 1) 0

theorem splitTextGo_of_le (text : List Char) (cs ov start : Nat)
    (h : text.length ≤ start) : ∀ fuel, splitTextGo text cs ov fuel start = [] := by
  intro fuel
  cases fuel with
  | zero => rfl
  | succ n =>
    simp only [splitTextGo]
    rw [if_neg (by omega : ¬ start < text.length)]

/-- Main characterization of the chunker loop, proved by induction on the
fuel: provided the fuel dominates the remaining length (which `splitText`'s
choice of fuel always does), the `i`-th chunk produced from offset `start` is
the window of `cs` characters beginning at `start + i * (cs - ov)`; every
emitted window begins strictly inside the text; and the loop stops only once
the next computed start has reached or passed the end of the text. -/
theorem splitTextGo_spec (text : List Char) (cs ov : Nat) (hcs : ov < cs) :
    ∀ fuel start, text.length ≤ start + fuel →
      (∀ i, (h : i < (splitTextGo text cs ov fuel start).length) →
          (splitTextGo text cs ov fuel start).get ⟨i, h⟩ =
            (text.drop (start + i * (cs - ov))).take cs)
      ∧ (∀ i, i < (splitTextGo text cs ov fuel start).length →
          start + i * (cs - ov) < text.length)
      ∧ text.length ≤ start + (splitTextGo text cs ov fuel start).length * (cs - ov) := by
  intro fuel
  induction fuel with
  | zero =>
    intro start hstart
    refine ⟨?_, ?_, ?_⟩
    · intro i h; simp [splitTextGo] at h
    · intro i h; simp [splitTextGo] at h
    · simp only [splitTextGo, List.length_nil]; omega
  | succ n ih =>
    intro start hstart
    by_cases hlt : start < text.length
    · have hgo : splitTextGo text cs ov (n + 1) start =
          ((text.drop start).take cs) :: splitTextGo text cs ov n (start + cs - ov) := by
        simp only [splitTextGo]
        rw [if_pos hlt]
      rw [hgo]
      obtain ⟨ih1, ih2, ih3⟩ := ih (start + cs - ov) (by omega)
      refine ⟨?_, ?_, ?_⟩
      · intro i h
        match i with
        | 0 => simp
        | Nat.succ j =>
          simp only [List.length_cons] at h
          have hj : j < (splitTextGo text cs ov n (start + cs - ov)).length := by omega
          have hget := ih1 j hj
          simp only [List.get_cons_succ]
          rw [hget]
          have h1 : Nat.succ j * (cs - ov) = j * (cs - ov) + (cs - ov) := Nat.succ_mul _ _
          have hoff : start + cs - ov + j * (cs - ov) = start + Nat.succ j * (cs - ov) := by
            omega
          rw [hoff]
      · intro i h
        match i with
        | 0 => simpa using hlt
        | Nat.succ j =>
          simp only [List.length_cons] at h
          have hj : j < (splitTextGo text cs ov n (start + cs - ov)).length := by omega
          have := ih2 j hj
          have h1 : Nat.succ j * (cs - ov) = j * (cs - ov) + (cs - ov) := Nat.succ_mul _ _
          omega
      · simp only [List.length_cons]
        have h1 : ((splitTextGo text cs ov n (start + cs - ov)).length + 1) * (cs - ov)
            = (splitTextGo text cs ov n (start + cs - ov)).length * (cs - ov) + (cs - ov) := by
          ring
        omega
    · have hgo : splitTextGo text cs ov (n + 1) start = [] := by
        simp only [splitTextGo]
        rw [if_neg hlt]
      rw [hgo]
      refine ⟨?_, ?_, ?_⟩
      · intro i h; simp at h
      · intro i h; simp at h
      · simp only [List.length_nil]; omega

/-! ## Chunker: `split_text_into_chunks` in `RAG/rag_utils.py` (lines 173-211). -/

/-- Embeds Python `chunk.rfind(c)`: index of the last occurrence of `c`,
`-1` if absent. -/
def rfindChar (l : List Char) (c : Char) : Int :=
  match l with
  | [] => -1
  | a :: rest =>
    let r := rfindChar rest c
    if r ≥ 0 then r + 1
    else if a = c then 0 else -1

/-- The whitespace characters stripped by Python `str.strip()` (ASCII part). -/
def isSpaceChar (c : Char) : Bool :=
  c = ' ' || c = '\t' || c = '\n' || c = '\x0d' || c = '\x0b' || c = '\x0c'

/-- Embeds Python `str.strip()` (ASCII whitespace). -/
def stripChars (l : List Char) : List Char :=
  ((l.dropWhile isSpaceChar).reverse.dropWhile isSpaceChar).reverse

/-- The `while start < len(text)` loop of `split_text_into_chunks`: take a
`chunk_size` window, optionally snap its end to the last sentence terminator
(`.`, `!`, `?`) when `end < len(text)` and the terminator's index (an index
into `chunk`, compared by the source against `start + chunk_size // 2`)
exceeds `start + chunk_size // 2`, append `chunk.strip()`, advance
`start = end - overlap`, and break once `start >= len(text)`.  Fuel bounds
the iteration count (sufficient whenever the Python loop terminates with at
most `text.length` iterations); `end - overlap` uses truncated subtraction
(the source, with its default parameters, never drives it negative). -/
def sentenceChunksGo (text : List Char) (cs ov : Nat) : Nat → Nat → List (List Char)
  | 0, _ => []
  | fuel + 1, start =>
    if start < text.length then
      let endPos := start + cs
      let chunk := (text.drop start).take cs
      let snapped :=
        if endPos < text.length then
          let lastS := max (max (rfindChar chunk '.') (rfindChar chunk '!'))
            (rfindChar chunk '?')
          if lastS > ((start + cs / 2 : Nat) : Int) then
            ((text.drop start).take (lastS.toNat + 1), start + lastS.toNat + 1)
          else (chunk, endPos)
        else (chunk, endPos)
      let start2 := snapped.2 - ov
      stripChars snapped.1 ::
        (if start2 ≥ text.length then [] else sentenceChunksGo text cs ov fuel start2)
    else []

/-- Embeds `split_text_into_chunks(text, chunk_size, overlap)` from
`RAG/rag_utils.py`: early return of `[text]` when
`len(text) <= chunk_size`, otherwise the sentence-snapping chunk loop. -/
def split_text_into_chunks (text : List Char) (cs ov : Nat) : List (List Char) :=
  if text.length ≤ cs then [text]
  else sentenceChunksGo text cs ov (text.length + 1) 0

/-! ## Claims C7 and C8 -/

/-- C7: for `0 < overlap < chunk_size`, every window of `_split_text` starts
at `previous_start + chunk_size - overlap` (window `i` starts at
`i * (chunk_size - overlap)`, so with `chunk_size = 1000`, `overlap = 200`
the starts increase by exactly 800); every emitted window starts strictly
before the end of the text and the loop stops exactly when the computed
start reaches or passes the text length; and the final chunk's end offset is
at least the text length. -/
theorem C7_chunker_windows (text : List Char) (cs ov : Nat)
    (hov : 0 < ov) (hcs : ov < cs) :
    (∀ i, (h : i < (splitText text cs ov).length) →
        (splitText text cs ov).get ⟨i, h⟩ = (text.drop (i * (cs - ov))).take cs)
    ∧ (∀ i, i < (splitText text cs ov).length → i * (cs - ov) < text.length)
    ∧ text.length ≤ (splitText text cs ov).length * (cs - ov)
    ∧ (text ≠ [] →
        text.length ≤ ((splitText text cs ov).length - 1) * (cs - ov) + cs) := by
  obtain ⟨h1, h2, h3⟩ :=
    splitTextGo_spec text cs ov hcs (text.length + 1) 0 (by omega)
  have hz : ∀ i : Nat, 0 + i * (cs - ov) = i * (cs - ov) := by intro i; omega
  refine ⟨?_, ?_, ?_, ?_⟩
  · intro i h
    have := h1 i h
    rwa [hz i] at this
  · intro i h
    have := h2 i h
    omega
  · simp only [splitText]
    omega
  · intro hne
    have hpos : 0 < text.length := List.length_pos.mpr hne
    have hlen : text.length ≤ (splitText text cs ov).length * (cs - ov) := by
      simp only [splitText]
      omega
    have hn1 : 1 ≤ (splitText text cs ov).length := by
      by_contra hcon
      have h0 : (splitText text cs ov).length = 0 := by omega
      rw [h0] at hlen
      omega
    have hsucc : ((splitText text cs ov).length - 1 + 1) * (cs - ov)
        = ((splitText text cs ov).length - 1) * (cs - ov) + (cs - ov) :=
      Nat.succ_mul _ _
    have heq : (splitText text cs ov).length - 1 + 1 = (splitText text cs ov).length := by
      omega
    rw [heq] at hsucc
    omega

theorem C7_chunker_windows_witness :
    "abcde".data.length ≤ (splitText "abcde".data 3 1).length * (3 - 1) :=
  (C7_chunker_windows "abcde".data 3 1 (by decide) (by decide)).2.2.1

/-- C8 counterexample: the claim asserts that any text shorter than
`chunk_size` yields exactly one chunk, but `_split_text` has no early return:
with `chunk_size = 4`, `overlap = 3` (which satisfy
`0 < overlap < chunk_size`) the 3-character text `"abc"` — shorter than the
chunk size — is split into 3 chunks, not 1. -/
theorem C8_short_text_counterexample :
    ("abc".data.length < 4 ∧ 0 < 3 ∧ 3 < 4)
    ∧ (splitText "abc".data 4 3).length = 3 := by decide

/-- C8 amended: `split_text_into_chunks` (rag_utils) returns exactly one
chunk equal to the whole text whenever `len(text) ≤ chunk_size`; the backend
`_split_text` does so only for non-empty text with
`len(text) ≤ chunk_size - overlap` (for `chunk_size - overlap < len(text)
< chunk_size` it emits more than one chunk, and for empty text it emits
none). -/
theorem C8_short_text_amended (text : List Char) (cs ov : Nat)
    (hov : 0 < ov) (hcs : ov < cs) :
    (text.length ≤ cs → split_text_into_chunks text cs ov = [text])
    ∧ (0 < text.length → text.length ≤ cs - ov → splitText text cs ov = [text]) := by
  constructor
  · intro hle
    simp only [split_text_into_chunks, if_pos hle]
  · intro hpos hle
    have hgo : splitText text cs ov =
        ((text.drop 0).take cs) :: splitTextGo text cs ov text.length (0 + cs - ov) := by
      simp only [splitText, splitTextGo]
      rw [if_pos hpos]
    rw [hgo, splitTextGo_of_le text cs ov (0 + cs - ov) (by omega) text.length]
    simp only [List.drop_zero]
    rw [List.take_of_length_le (by omega)]

theorem C8_short_text_amended_witness :
    splitText "ab".data 4 1 = ["ab".data] :=
  (C8_short_text_amended "ab".data 4 1 (by decide) (by decide)).2 (by decide) (by decide)

/-! ## Question classifier inside `RAGDocumentService.rag_query`
(`rag_service.py`, lines 212-216). -/

/-- ASCII lower-casing of one character; Python's `str.lower()` restricted to
the ASCII range, which covers the keyword list and the spec's example
questions. -/
def lowerChar (c : Char) : Char :=
  if 65 ≤ c.toNat ∧ c.toNat ≤ 90 then Char.ofNat (c.toNat + 32) else c

/-- Embeds `question.lower()`. -/
def lowerStr (s : String) : String :=
  String.mk (s.data.map lowerChar)

/-- Embeds Python substring containment `kw in s` on character lists. -/
def hasSubstr (s kw : List Char) : Bool :=
  match s with
  | [] => kw.isEmpty
  | c :: rest => kw.isPrefixOf (c :: rest) || hasSubstr rest kw

/-- The fixed `general_keywords` list of `rag_query` (lines 213-215). -/
def general_keywords : List String :=
  ["current", "average", "typical", "what is", "how much", "explain",
   "define", "difference between", "requirements for", "process of",
   "rate", "rates", "guidelines", "rules", "regulations", "qualify"]

/-- Embeds `any(keyword in question.lower() for keyword in general_keywords)`
(line 216). -/
def is_general_question (question : String) : Bool :=
  general_keywords.any (fun kw => hasSubstr (lowerStr question).data kw.data)

/-- The two routing labels of the spec's §4.3. -/
inductive Classification where
  | general
  | documentSpecific
deriving DecidableEq

/-- The classifier of §4.3 as realized by the branch condition of
`rag_query`: `GENERAL` iff the lower-cased question contains one of the
fixed keywords. -/
def classify (question : String) : Classification :=
  if is_general_question question then Classification.general
  else Classification.documentSpecific

/-- Correctness of the executable substring test against Mathlib's
`List.IsInfix`. -/
theorem hasSubstr_iff (s kw : List Char) : hasSubstr s kw = true ↔ kw <:+: s := by
  induction s with
  | nil =>
    simp only [hasSubstr, List.isEmpty_iff, List.infix_nil]
  | cons c rest ih =>
    simp only [hasSubstr, Bool.or_eq_true, List.isPrefixOf_iff_prefix, ih,
      List.infix_cons_iff]

/-- C3 counterexample: the claim asserts
`classify("What is the loan amount on page 3 of my statement?") =
DOCUMENT_SPECIFIC`, but the keyword list of `rag_query` contains
`"what is"`, which occurs in the lower-cased question, so the code
classifies it `GENERAL`. -/
theorem C3_classifier_counterexample :
    classify "What is the loan amount on page 3 of my statement?"
        = Classification.general
    ∧ classify "What is the loan amount on page 3 of my statement?"
        ≠ Classification.documentSpecific := by
  decide

/-- C3 amended: the classifier lower-cases the question and returns GENERAL
exactly when the result contains one of the fixed generic-knowledge
keywords, otherwise DOCUMENT_SPECIFIC; the keyword list includes
`"what is"`, so both `classify("What is the current average mortgage
rate?")` and `classify("What is the loan amount on page 3 of my
statement?")` are GENERAL. -/
theorem C3_classifier_amended :
    (∀ question : String, classify question = Classification.general ↔
        ∃ kw ∈ general_keywords, kw.data <:+: (lowerStr question).data)
    ∧ classify "What is the current average mortgage rate?" = Classification.general
    ∧ classify "What is the loan amount on page 3 of my statement?"
        = Classification.general := by
  refine ⟨?_, by decide, by decide⟩
  intro question
  have hiff : classify question = Classification.general ↔
      is_general_question question = true := by
    unfold classify
    by_cases h : is_general_question question
    · simp [h]
    · simp [h]
  rw [hiff]
  unfold is_general_question
  rw [List.any_eq_true]
  constructor
  · rintro ⟨kw, hmem, hkw⟩
    exact ⟨kw, hmem, (hasSubstr_iff _ _).mp hkw⟩
  · rintro ⟨kw, hmem, hkw⟩
    exact ⟨kw, hmem, (hasSubstr_iff _ _).mpr hkw⟩

theorem C3_classifier_amended_witness :
    classify "What is the current average mortgage rate?" = Classification.general :=
  C3_classifier_amended.2.1

/-! ## `RAGDocumentService` (`rag_service.py`)

Observable collaborator invocations are recorded in an event trace so that
call-order claims (C2) can be stated.  Apostrophes inside source prompt
strings are rendered with the escape `\x27`. -/

/-- What kind of context a Gemini `generate_content` call is given: local
retrieved chunks, web snippets, or none (the unscoped fallback, whose
"context" is only the placeholder `"(No live web results found.)"`). -/
inductive GenKind where
  | localContext
  | webContext
  | unscoped
deriving DecidableEq

/-- One external-collaborator invocation. -/
inductive Event where
  | queryCollection (name : String)
  | webSearch
  | generate (kind : GenKind)
deriving DecidableEq

/-- Collaborators of `RAGDocumentService`.  `Except.error e` models a raised
exception with message `e`. -/
structure RagDeps where
  /-- `GEMINI_API_KEY` is set. -/
  geminiKey : Bool
  /-- `SERPAPI_API_KEY` is set and the serpapi package imported. -/
  serpOk : Bool
  /-- `self.collection.query(query_texts=[q], n_results=n)["documents"]`:
  one list of chunk texts per query text. -/
  collectionQuery : String → Nat → Except String (List (List String))
  /-- The snippet strings of SerpAPI's `organic_results` (each
  `item.get("snippet", "")`). -/
  webSnippets : String → Except String (List String)
  /-- `genai.GenerativeModel("models/gemini-2.0-flash-exp")
  .generate_content(prompt).text`. -/
  generate : String → Except String String

/-- Embeds `RAGDocumentService.query_documents` (lines 134-161): query the
collection, flatten the per-query-text document lists, return `[]` on any
exception. -/
def query_documents (d : RagDeps) (question : String) (n_results : Nat) :
    List String × List Event :=
  match d.collectionQuery question n_results with
  | Except.error _ => ([], [Event.queryCollection "documents_collection"])
  | Except.ok docss => (docss.flatten, [Event.queryCollection "documents_collection"])

/-- The prompt literal of `generate_response` (lines 180-187). -/
def rag_prompt (context question : String) : String :=
  "You are an assistant for document analysis and question-answering tasks. " ++
  "Use the following pieces of retrieved context to answer the question. " ++
  "If you don\x27t know the answer, say that you don\x27t know. " ++
  "Use only the necessary sentences and keep the answer concise.\n\n" ++
  "Context:\n" ++ context ++ "\n\nQuestion:\n" ++ question

/-- Embeds `RAGDocumentService.generate_response` (lines 163-196). -/
def generate_response (d : RagDeps) (question : String) (context_docs : List String) :
    String × List Event :=
  if !d.geminiKey then
    ("Gemini API key not configured. Cannot generate response.", [])
  else
    let context := String.intercalate "\n\n" context_docs
    let prompt := rag_prompt context question
    match d.generate prompt with
    | Except.ok t => (t, [Event.generate GenKind.localContext])
    | Except.error e =>
      ("Error generating response: " ++ e, [Event.generate GenKind.localContext])

/-- Embeds `RAGDocumentService._web_search` (lines 338-355): top-`k`
snippets, empty ones dropped; `[]` when unconfigured or on exception. -/
def web_search (d : RagDeps) (query : String) (k : Nat) : List String × List Event :=
  if !(d.serpOk) then ([], [])
  else
    match d.webSnippets query with
    | Except.error _ => ([], [Event.webSearch])
    | Except.ok snippets =>
      ((snippets.take k).filter (fun s => s ≠ ""), [Event.webSearch])

/-- The prompt literal of `_generate_general_response` (lines 260-267). -/
def rag_general_prompt (web_context question : String) : String :=
  "You are a senior mortgage underwriting AI assistant. " ++
  "Answer the user\x27s question with authoritative, up-to-date mortgage information. " ++
  "Incorporate statistics (rates, averages, limits) if available in the CONTEXT or your training. " ++
  "Cite external facts briefly (e.g., \x27According to HUD 2024 report, …\x27). " ++
  "Keep the answer concise and actionable.\n\n" ++
  "CONTEXT:\n" ++ web_context ++ "\n\nQUESTION:\n" ++ question

/-- Embeds `RAGDocumentService._generate_general_response` (lines 240-277):
web-enhanced generation, with the placeholder context
`"(No live web results found.)"` when the web search yields nothing (the
unscoped fallback). -/
def generate_general_response (d : RagDeps) (question : String) :
    String × List Event :=
  if !d.geminiKey then
    ("Gemini API key is not configured.", [])
  else
    let ws := web_search d question 5
    let web_context0 := String.intercalate "\n\n" ws.1
    let web_context :=
      if web_context0 = "" then "(No live web results found.)" else web_context0
    let kind := if ws.1.isEmpty then GenKind.unscoped else GenKind.webContext
    let prompt := rag_general_prompt web_context question
    match d.generate prompt with
    | Except.ok t => (t, ws.2 ++ [Event.generate kind])
    | Except.error e =>
      ("I\x27m here to help with mortgage questions, but I encountered an error fetching or generating the answer. " ++
       "Error: " ++ e,
       ws.2 ++ [Event.generate kind])

/-- The result dictionary of `rag_query`.  An `Option` field models a
dictionary key that is present only on some paths (`none` = key absent);
`rag_query` never emits a `documents_found` key. -/
structure RagResult where
  answer : String
  sources : List String
  context_used : Bool
  web_search_used : Bool
  num_sources : Option Nat
  documents_found : Option Nat
deriving DecidableEq

/-- Embeds `RAGDocumentService.rag_query` (lines 198-238): retrieve, detect
general questions by keyword, route to web-enhanced generation when the
question is general or no documents were found, otherwise generate from the
local context. -/
def rag_query (d : RagDeps) (question : String) (n_results : Nat) :
    RagResult × List Event :=
  let qd := query_documents d question n_results
  let context_docs := qd.1
  if is_general_question question || context_docs.isEmpty then
    let g := generate_general_response d question
    ({ answer := g.1, sources := [], context_used := false,
       web_search_used := true, num_sources := none, documents_found := none },
     qd.2 ++ g.2)
  else
    let r := generate_response d question context_docs
    ({ answer := r.1, sources := context_docs, context_used := true,
       web_search_used := false, num_sources := some context_docs.length,
       documents_found := none },
     qd.2 ++ r.2)

/-! ## `MortgageKnowledgeBase` (`mortgage_kb_service.py`) -/

/-- Metadata stored with a user-document chunk; `none` models a key absent
from the metadata dictionary (the code reads every key with `.get` and a
default). -/
structure UserMeta where
  filename : Option String
  document_id : Option String
  chunk_index : Option Nat
  total_chunks : Option Nat
deriving DecidableEq

/-- Metadata stored with a policy-document chunk. -/
structure PolicyMeta where
  pdf_name : Option String
  page_number : Option Nat
  path : Option String
deriving DecidableEq

/-- A provenance entry of the `sources` list built by
`MortgageKnowledgeBase.query`; the two constructors carry the fields of the
`"user_document"` and `"policy_document"` dictionaries (lines 261-266 and
278-283).  `page = none` models the `"N/A"` default. -/
inductive Source where
  | user_document (filename document_id chunk : String)
  | policy_document (pdf_name : String) (page : Option Nat) (path : String)
deriving DecidableEq

/-- Lines 261-266: format one user-document hit. -/
def formatUserSource (m : UserMeta) : Source :=
  Source.user_document (m.filename.getD "Unknown") (m.document_id.getD "")
    (Nat.repr (m.chunk_index.getD 0 + 1) ++ "/" ++ Nat.repr (m.total_chunks.getD 1))

/-- Lines 278-283: format one policy-document hit. -/
def formatPolicySource (m : PolicyMeta) : Source :=
  Source.policy_document (m.pdf_name.getD "Unknown") m.page_number (m.path.getD "")

/-- The inner lists of a ChromaDB query result for a single query text:
`results["documents"][0]` and `results["metadatas"][0]`, which the store
returns in ranked order. -/
structure ChromaHits (μ : Type) where
  documents : List String
  metadatas : List μ
deriving DecidableEq

/-- Collaborators of `MortgageKnowledgeBase`. -/
structure KbDeps where
  /-- `GEMINI_API_KEY` is set. -/
  geminiKey : Bool
  /-- `SERPAPI_API_KEY` is set and the serpapi package imported. -/
  serpOk : Bool
  /-- `self.user_collection.count()`. -/
  userCount : Nat
  /-- `self.policy_collection.count()`. -/
  policyCount : Nat
  /-- `self.user_collection.query(query_texts=[question], n_results=n)`. -/
  userQuery : String → Nat → Except String (ChromaHits UserMeta)
  /-- `self.policy_collection.query(query_texts=[question], n_results=n)`. -/
  policyQuery : String → Nat → Except String (ChromaHits PolicyMeta)
  /-- Snippet strings of SerpAPI's `organic_results`. -/
  webSnippets : String → Except String (List String)
  /-- `genai.GenerativeModel(...).generate_content(prompt).text`. -/
  generate : String → Except String String

/-- The result dictionary of `MortgageKnowledgeBase.query`.  `Option` fields
model keys present only on some paths (`none` = key absent): the code emits
`web_search_used` only on the two no-context fallback returns (lines
290-301), and `context_snippets` / `searched_user_docs` /
`searched_policy_docs` only on the successful local-context return (lines
327-334). -/
structure KbResult where
  answer : String
  sources : List Source
  documents_found : Nat
  web_search_used : Option Bool
  context_snippets : Option (List String)
  searched_user_docs : Option Bool
  searched_policy_docs : Option Bool
deriving DecidableEq

/-- The prompt literal of `_web_search_fallback` (lines 387-393). -/
def kb_web_prompt (web_context question : String) : String :=
  "You are a mortgage expert assistant. Answer the user\x27s question using the web search results below. " ++
  "Provide accurate, up-to-date information with statistics when available. " ++
  "Cite sources briefly if helpful (e.g., \x27According to recent data...\x27).\n\n" ++
  "WEB SEARCH RESULTS:\n" ++ web_context ++ "\n\nQUESTION:\n" ++ question

/-- Embeds `MortgageKnowledgeBase._web_search_fallback` (lines 354-405):
`none` models Python `None` (search unavailable, search raised, no snippets,
Gemini unconfigured, or generation raised). -/
def web_search_fallback (d : KbDeps) (question : String) :
    Option String × List Event :=
  if !(d.serpOk) then (none, [])
  else
    match d.webSnippets question with
    | Except.error _ => (none, [Event.webSearch])
    | Except.ok raw =>
      let snippets := (raw.take 5).filter (fun s => s ≠ "")
      if snippets.isEmpty then (none, [Event.webSearch])
      else if !d.geminiKey then (none, [Event.webSearch])
      else
        let web_context := String.intercalate "\n\n" snippets
        let prompt := kb_web_prompt web_context question
        match d.generate prompt with
        | Except.ok t => (some t, [Event.webSearch, Event.generate GenKind.webContext])
        | Except.error _ => (none, [Event.webSearch, Event.generate GenKind.webContext])

/-- The prompt literal of `query` (lines 306-314). -/
def kb_prompt (context question : String) : String :=
  "You are a mortgage expert assistant. Answer the user\x27s question using the provided context. " ++
  "The context may include: (1) official mortgage policy documents (Fannie Mae, FHA, etc.) " ++
  "and (2) user-uploaded documents (loan agreements, applications, etc.). " ++
  "Provide accurate answers and cite sources when possible. " ++
  "If the context doesn\x27t fully answer, acknowledge limitations.\n\n" ++
  "CONTEXT:\n" ++ context ++ "\n\nQUESTION:\n" ++ question

/-- The `except` return of `query` (lines 336-344); note: no
`web_search_used` key. -/
def kbErrorResult (e : String) : KbResult :=
  { answer := "Error querying: " ++ e, sources := [], documents_found := 0,
    web_search_used := none, context_snippets := none,
    searched_user_docs := none, searched_policy_docs := none }

/-- The static no-results return of `query` (lines 296-301). -/
def kbNoResult : KbResult :=
  { answer := "No relevant information found in documents or web search. Try uploading documents or rephrasing your question.",
    sources := [], documents_found := 0, web_search_used := some false,
    context_snippets := none, searched_user_docs := none,
    searched_policy_docs := none }

/-- Embeds `MortgageKnowledgeBase.query` (lines 234-344): query the user
collection then the policy collection (each only when enabled and non-empty),
concatenate context chunks and formatted sources in that order; when no
context was found, try the web-search fallback, else the static no-results
answer; otherwise generate with Gemini from the concatenated context.  The
whole body sits in one `try`, so an exception from a collection query or
from generation yields `kbErrorResult`. -/
def kbQuery (d : KbDeps) (question : String) (n_results : Nat)
    (search_user_docs search_policy_docs : Bool) : KbResult × List Event :=
  let userStep : Except String (List String × List Source) × List Event :=
    if search_user_docs && decide (0 < d.userCount) then
      match d.userQuery question n_results with
      | Except.error e =>
        (Except.error e, [Event.queryCollection "User_Documents_Collection"])
      | Except.ok r =>
        if !r.documents.isEmpty then
          (Except.ok (r.documents, r.metadatas.map formatUserSource),
           [Event.queryCollection "User_Documents_Collection"])
        else
          (Except.ok ([], []), [Event.queryCollection "User_Documents_Collection"])
    else (Except.ok ([], []), [])
  match userStep.1 with
  | Except.error e => (kbErrorResult e, userStep.2)
  | Except.ok us =>
    let policyStep : Except String (List String × List Source) × List Event :=
      if search_policy_docs && decide (0 < d.policyCount) then
        match d.policyQuery question n_results with
        | Except.error e =>
          (Except.error e, [Event.queryCollection "Mortgages_Collection"])
        | Except.ok r =>
          if !r.documents.isEmpty then
            (Except.ok (r.documents, r.metadatas.map formatPolicySource),
             [Event.queryCollection "Mortgages_Collection"])
          else
            (Except.ok ([], []), [Event.queryCollection "Mortgages_Collection"])
      else (Except.ok ([], []), [])
    match policyStep.1 with
    | Except.error e => (kbErrorResult e, userStep.2 ++ policyStep.2)
    | Except.ok ps =>
      let all_context_docs := us.1 ++ ps.1
      let all_sources := us.2 ++ ps.2
      let tracePre := userStep.2 ++ policyStep.2
      if all_context_docs.isEmpty then
        let wf := web_search_fallback d question
        match wf.1 with
        | some web_answer =>
          if web_answer ≠ "" then
            ({ answer := web_answer, sources := [], documents_found := 0,
               web_search_used := some true, context_snippets := none,
               searched_user_docs := none, searched_policy_docs := none },
             tracePre ++ wf.2)
          else (kbNoResult, tracePre ++ wf.2)
        | none => (kbNoResult, tracePre ++ wf.2)
      else
        let context := String.intercalate "\n\n" all_context_docs
        let prompt := kb_prompt context question
        if !d.geminiKey then
          ({ answer := "Gemini API key not configured.", sources := all_sources,
             documents_found := all_context_docs.length, web_search_used := none,
             context_snippets := none, searched_user_docs := none,
             searched_policy_docs := none },
           tracePre)
        else
          match d.generate prompt with
          | Except.error e =>
            (kbErrorResult e, tracePre ++ [Event.generate GenKind.localContext])
          | Except.ok t =>
            ({ answer := t, sources := all_sources,
               documents_found := all_context_docs.length,
               web_search_used := none,
               context_snippets := some (all_context_docs.take 2),
               searched_user_docs :=
                 some (search_user_docs && decide (0 < d.userCount)),
               searched_policy_docs :=
                 some (search_policy_docs && decide (0 < d.policyCount)) },
             tracePre ++ [Event.generate GenKind.localContext])

/-! ## Claim C1 -/

theorem classify_general_iff (q : String) :
    classify q = Classification.general ↔ is_general_question q = true := by
  unfold classify
  by_cases h : is_general_question q
  · simp [h]
  · simp [h]

theorem classify_docSpecific_iff (q : String) :
    classify q = Classification.documentSpecific ↔ is_general_question q = false := by
  unfold classify
  by_cases h : is_general_question q
  · simp [h]
  · simp [h]

/-- C1: in `rag_query`, if retrieval returns non-empty context and the
question classifies DOCUMENT_SPECIFIC, the answer is generated from the
local context and `web_search_used = false`; if the question classifies
GENERAL, or the retrieved context is empty, the web-enhanced fallback path
is taken and `web_search_used = true`. -/
theorem C1_routing_decision (d : RagDeps) (question : String) (n : Nat) :
    ((query_documents d question n).1 ≠ [] →
        classify question = Classification.documentSpecific →
        (rag_query d question n).1.web_search_used = false
          ∧ (rag_query d question n).1.sources = (query_documents d question n).1
          ∧ (rag_query d question n).1.answer
              = (generate_response d question (query_documents d question n).1).1)
    ∧ ((classify question = Classification.general
          ∨ (query_documents d question n).1 = []) →
        (rag_query d question n).1.web_search_used = true
          ∧ (rag_query d question n).1.sources = []
          ∧ (rag_query d question n).1.answer
              = (generate_general_response d question).1) := by
  constructor
  · intro hne hcls
    have hb : is_general_question question = false :=
      (classify_docSpecific_iff question).mp hcls
    have hempty : (query_documents d question n).1.isEmpty = false := by
      cases hq : (query_documents d question n).1
      · exact absurd hq hne
      · rfl
    simp only [rag_query, hb, hempty, Bool.or_self, Bool.false_eq_true, if_false]
    simp
  · intro hor
    have hcond : (is_general_question question
        || (query_documents d question n).1.isEmpty) = true := by
      rcases hor with hg | he
      · simp [(classify_general_iff question).mp hg]
      · simp [he]
    simp only [rag_query, hcond, if_true]
    simp

/-- Concrete collaborators for the C1 witness: retrieval finds one chunk,
web search and generation succeed. -/
def ragDepsLocal : RagDeps :=
  { geminiKey := true, serpOk := true,
    collectionQuery := fun _ _ => Except.ok [["chunk one"]],
    webSnippets := fun _ => Except.ok ["web snippet"],
    generate := fun _ => Except.ok "generated answer" }

theorem C1_routing_decision_witness :
    (rag_query ragDepsLocal "my loan balance" 3).1.web_search_used = false :=
  (((C1_routing_decision ragDepsLocal "my loan balance" 3).1
    (by decide) (by decide))).1

/-! ## Claim C2 -/

theorem wsf_trace (d : KbDeps) (q : String) :
    (d.serpOk = true → Event.webSearch ∈ (web_search_fallback d q).2)
    ∧ Event.generate GenKind.unscoped ∉ (web_search_fallback d q).2 := by
  unfold web_search_fallback
  by_cases hs : d.serpOk
  · simp only [hs, Bool.not_true, Bool.false_eq_true, if_false]
    constructor
    · intro _
      split
      · simp
      · split
        · simp
        · split
          · simp
          · split <;> simp
    · intro hmem
      revert hmem
      split
      · simp
      · split
        · simp
        · split
          · simp
          · split <;> simp
  · have hs' : d.serpOk = false := by simpa using hs
    simp [hs']

theorem ws_trace (d : RagDeps) (q : String) (k : Nat) :
    (web_search d q k).2 = [] ∨ (web_search d q k).2 = [Event.webSearch] := by
  unfold web_search
  split
  · left; rfl
  · split
    · right; rfl
    · right; rfl

theorem ggr_trace (d : RagDeps) (q : String) :
    (generate_general_response d q).2 = []
    ∨ (generate_general_response d q).2
        = (web_search d q 5).2
          ++ [Event.generate
                (if (web_search d q 5).1.isEmpty then GenKind.unscoped
                 else GenKind.webContext)] := by
  unfold generate_general_response
  by_cases hk : (!d.geminiKey) = true
  · rw [if_pos hk]
    left
    rfl
  · rw [if_neg hk]
    right
    rcases hx : d.generate (rag_general_prompt
        (if String.intercalate "\n\n" (web_search d q 5).1 = ""
         then "(No live web results found.)"
         else String.intercalate "\n\n" (web_search d q 5).1) q) with e | t <;>
      simp only [hx]

/-- The complete trace shapes of `_web_search_fallback`: it emits no events
only when SerpAPI is unconfigured, and whenever it generates (always with
web context, never unscoped) the generation strictly follows the web-search
call. -/
theorem wsf_cases (d : KbDeps) (q : String) :
    (web_search_fallback d q).2 = []
    ∨ (web_search_fallback d q).2 = [Event.webSearch]
    ∨ (web_search_fallback d q).2
        = [Event.webSearch, Event.generate GenKind.webContext] := by
  unfold web_search_fallback
  by_cases hs : d.serpOk
  · simp only [hs, Bool.not_true, Bool.false_eq_true, if_false]
    split
    · right; left; rfl
    · split
      · right; left; rfl
      · split
        · right; left; rfl
        · split
          · right; right; rfl
          · right; right; rfl
  · have hs' : d.serpOk = false := by simpa using hs
    simp [hs']

/-- C2: given a DOCUMENT_SPECIFIC question for which every collection
returns zero chunks, `MortgageKnowledgeBase.query` reports
`documents_found = 0`, runs its web-search fallback (issuing the actual web
call whenever SerpAPI is configured, and generating — always after the web
call, always web-scoped — only then) and never performs an unscoped
generation; and on the `rag_service` side, the unscoped Gemini call of the
fallback path occurs exactly when Gemini is configured and the web search
returned no snippets, and in the trace it comes strictly after the
retrieval and web-search events. -/
theorem C2_fallback_ordering (d : KbDeps) (d' : RagDeps) (question q' : String)
    (n n' : Nat) (su sp : Bool)
    (ru : ChromaHits UserMeta) (rp : ChromaHits PolicyMeta)
    (hu : d.userQuery question n = Except.ok ru) (hru : ru.documents = [])
    (hp : d.policyQuery question n = Except.ok rp) (hrp : rp.documents = [])
    (_hcls : classify question = Classification.documentSpecific)
    (_hcls2 : classify q' = Classification.documentSpecific)
    (hqe : (query_documents d' q' n').1 = []) :
    (kbQuery d question n su sp).1.documents_found = 0
    ∧ (d.serpOk = true → Event.webSearch ∈ (kbQuery d question n su sp).2)
    ∧ Event.generate GenKind.unscoped ∉ (kbQuery d question n su sp).2
    ∧ (Event.generate GenKind.unscoped ∈ (rag_query d' q' n').2 →
        (web_search d' q' 5).1 = []
        ∧ (rag_query d' q' n').2
            = (query_documents d' q' n').2 ++ (web_search d' q' 5).2
              ++ [Event.generate GenKind.unscoped])
    ∧ (d'.geminiKey = true → (web_search d' q' 5).1 = [] →
        (rag_query d' q' n').2
          = (query_documents d' q' n').2 ++ (web_search d' q' 5).2
            ++ [Event.generate GenKind.unscoped])
    ∧ ((web_search_fallback d question).2 = []
        ∨ (web_search_fallback d question).2 = [Event.webSearch]
        ∨ (web_search_fallback d question).2
            = [Event.webSearch, Event.generate GenKind.webContext]) := by
  have hwsf := wsf_trace d question
  have hkb : (kbQuery d question n su sp).1.documents_found = 0
      ∧ ∃ preU preP,
          (kbQuery d question n su sp).2
            = preU ++ preP ++ (web_search_fallback d question).2
          ∧ (preU = [] ∨ preU = [Event.queryCollection "User_Documents_Collection"])
          ∧ (preP = [] ∨ preP = [Event.queryCollection "Mortgages_Collection"]) := by
    unfold kbQuery
    by_cases hc1 : (su && decide (0 < d.userCount)) = true
    · by_cases hc2 : (sp && decide (0 < d.policyCount)) = true
      · simp only [hc1, hc2, if_true, hu, hru, hp, hrp, List.isEmpty_nil,
          Bool.not_true, Bool.false_eq_true, if_false, List.nil_append,
          List.isEmpty_iff]
        split
        · split
          · exact ⟨rfl, [Event.queryCollection "User_Documents_Collection"],
              [Event.queryCollection "Mortgages_Collection"], rfl,
              Or.inr rfl, Or.inr rfl⟩
          · exact ⟨rfl, [Event.queryCollection "User_Documents_Collection"],
              [Event.queryCollection "Mortgages_Collection"], rfl,
              Or.inr rfl, Or.inr rfl⟩
        · exact ⟨rfl, [Event.queryCollection "User_Documents_Collection"],
            [Event.queryCollection "Mortgages_Collection"], rfl,
            Or.inr rfl, Or.inr rfl⟩
      · have hc2' : (sp && decide (0 < d.policyCount)) = false := by simpa using hc2
        simp only [hc1, hc2', if_true, Bool.false_eq_true, if_false, hu, hru,
          List.isEmpty_nil, Bool.not_true, List.nil_append, List.append_nil,
          List.isEmpty_iff]
        split
        · split
          · exact ⟨rfl, [Event.queryCollection "User_Documents_Collection"], [],
              by simp, Or.inr rfl, Or.inl rfl⟩
          · exact ⟨rfl, [Event.queryCollection "User_Documents_Collection"], [],
              by simp, Or.inr rfl, Or.inl rfl⟩
        · exact ⟨rfl, [Event.queryCollection "User_Documents_Collection"], [],
            by simp, Or.inr rfl, Or.inl rfl⟩
    · have hc1' : (su && decide (0 < d.userCount)) = false := by simpa using hc1
      by_cases hc2 : (sp && decide (0 < d.policyCount)) = true
      · simp only [hc1', hc2, if_true, Bool.false_eq_true, if_false, hp, hrp,
          List.isEmpty_nil, Bool.not_true, List.nil_append,
          List.isEmpty_iff]
        split
        · split
          · exact ⟨rfl, [], [Event.queryCollection "Mortgages_Collection"],
              by simp, Or.inl rfl, Or.inr rfl⟩
          · exact ⟨rfl, [], [Event.queryCollection "Mortgages_Collection"],
              by simp, Or.inl rfl, Or.inr rfl⟩
        · exact ⟨rfl, [], [Event.queryCollection "Mortgages_Collection"],
            by simp, Or.inl rfl, Or.inr rfl⟩
      · have hc2' : (sp && decide (0 < d.policyCount)) = false := by simpa using hc2
        simp only [hc1', hc2', Bool.false_eq_true, if_false, if_true,
          List.isEmpty_nil, List.nil_append, List.isEmpty_iff]
        split
        · split
          · exact ⟨rfl, [], [], by simp, Or.inl rfl, Or.inl rfl⟩
          · exact ⟨rfl, [], [], by simp, Or.inl rfl, Or.inl rfl⟩
        · exact ⟨rfl, [], [], by simp, Or.inl rfl, Or.inl rfl⟩
  obtain ⟨hdf, preU, preP, htr, hpreU, hpreP⟩ := hkb
  refine ⟨hdf, ?_, ?_, ?_, ?_, wsf_cases d question⟩
  · intro hs
    rw [htr]
    exact List.mem_append.mpr (Or.inr (hwsf.1 hs))
  · intro hmem
    rw [htr] at hmem
    rcases List.mem_append.mp hmem with hl | hr
    · rcases List.mem_append.mp hl with hll | hlr
      · rcases hpreU with h | h <;> rw [h] at hll <;> simp at hll
      · rcases hpreP with h | h <;> rw [h] at hlr <;> simp at hlr
    · exact hwsf.2 hr
  · intro hmem
    have hcond : (is_general_question q'
        || (query_documents d' q' n').1.isEmpty) = true := by
      simp [hqe]
    unfold rag_query at hmem ⊢
    simp only [hcond, if_true] at hmem ⊢
    rcases ggr_trace d' q' with hg | hg
    · rw [hg] at hmem
      simp only [List.append_nil] at hmem
      unfold query_documents at hmem
      rcases hq : d'.collectionQuery q' n' with e | docss <;>
        rw [hq] at hmem <;> simp at hmem
    · rw [hg] at hmem
      by_cases hempty : (web_search d' q' 5).1.isEmpty
      · refine ⟨List.isEmpty_iff.mp hempty, ?_⟩
        rw [hg, hempty]
        simp [List.append_assoc]
      · exfalso
        have hne : (if (web_search d' q' 5).1.isEmpty then GenKind.unscoped
            else GenKind.webContext) = GenKind.webContext := by
          simp [hempty]
        rw [hne] at hmem
        rcases List.mem_append.mp hmem with hl | hr
        · unfold query_documents at hl
          rcases hq : d'.collectionQuery q' n' with e | docss <;>
            rw [hq] at hl <;> simp at hl
        · rcases List.mem_append.mp hr with hrl | hrr
          · rcases ws_trace d' q' 5 with h | h <;> rw [h] at hrl <;> simp at hrl
          · simp at hrr
  · intro hkey2 hsn
    have hcond : (is_general_question q'
        || (query_documents d' q' n').1.isEmpty) = true := by
      simp [hqe]
    have hgg : (generate_general_response d' q').2
        = (web_search d' q' 5).2 ++ [Event.generate GenKind.unscoped] := by
      unfold generate_general_response
      simp only [hkey2, Bool.not_true, Bool.false_eq_true, if_false]
      rcases hx : d'.generate (rag_general_prompt
          (if String.intercalate "\n\n" (web_search d' q' 5).1 = ""
           then "(No live web results found.)"
           else String.intercalate "\n\n" (web_search d' q' 5).1) q') with e | t <;>
        simp [hx, hsn]
    unfold rag_query
    simp only [hcond, if_true]
    rw [hgg, List.append_assoc]

/-- Concrete collaborators for the C2 witness: both collections return
zero chunks, SerpAPI and Gemini are configured. -/
def kbDepsEmpty : KbDeps :=
  { geminiKey := true, serpOk := true, userCount := 1, policyCount := 1,
    userQuery := fun _ _ => Except.ok ⟨[], []⟩,
    policyQuery := fun _ _ => Except.ok ⟨[], []⟩,
    webSnippets := fun _ => Except.ok ["rate snippet"],
    generate := fun _ => Except.ok "web answer" }

/-- Concrete `RagDeps` for the C2 witness: retrieval finds nothing and the
web search is unavailable. -/
def ragDepsEmpty : RagDeps :=
  { geminiKey := true, serpOk := false,
    collectionQuery := fun _ _ => Except.ok [],
    webSnippets := fun _ => Except.error "unavailable",
    generate := fun _ => Except.ok "unscoped answer" }

theorem C2_fallback_ordering_witness :
    (kbQuery kbDepsEmpty "my loan balance" 5 true true).1.documents_found = 0
    ∧ Event.webSearch ∈ (kbQuery kbDepsEmpty "my loan balance" 5 true true).2
    ∧ (rag_query ragDepsEmpty "my loan balance" 3).2
        = (query_documents ragDepsEmpty "my loan balance" 3).2
          ++ (web_search ragDepsEmpty "my loan balance" 5).2
          ++ [Event.generate GenKind.unscoped] := by
  have h := C2_fallback_ordering kbDepsEmpty ragDepsEmpty
    "my loan balance" "my loan balance" 5 3 true true ⟨[], []⟩ ⟨[], []⟩
    rfl rfl rfl rfl (by decide) (by decide) rfl
  exact ⟨h.1, h.2.1 rfl, h.2.2.2.2.1 rfl rfl⟩

/-! ## Claim C4 -/

theorem append_ne_empty (a b : String) (ha : a ≠ "") : a ++ b ≠ "" := by
  intro h
  have h2 : (a ++ b).data = ([] : List Char) := by rw [h]
  rw [String.data_append] at h2
  have h3 : a.data = [] := by
    cases hd : a.data
    · rfl
    · rw [hd] at h2; simp at h2
  exact ha (by cases a; simp_all)

theorem generate_response_ne (d : RagDeps) (q : String) (ctx : List String)
    (hg : ∀ p t, d.generate p ≠ Except.ok t) :
    (generate_response d q ctx).1 ≠ "" := by
  unfold generate_response
  by_cases hk : (!d.geminiKey) = true
  · rw [if_pos hk]; decide
  · rw [if_neg hk]
    rcases hx : d.generate (rag_prompt (String.intercalate "\n\n" ctx) q) with e | t
    · simp only [hx]
      exact append_ne_empty _ _ (by decide)
    · exact absurd hx (hg _ _)

theorem ggr_answer_ne (d : RagDeps) (q : String)
    (hg : ∀ p t, d.generate p ≠ Except.ok t) :
    (generate_general_response d q).1 ≠ "" := by
  unfold generate_general_response
  by_cases hk : (!d.geminiKey) = true
  · rw [if_pos hk]; decide
  · rw [if_neg hk]
    rcases hx : d.generate (rag_general_prompt
        (if String.intercalate "\n\n" (web_search d q 5).1 = ""
         then "(No live web results found.)"
         else String.intercalate "\n\n" (web_search d q 5).1) q) with e | t
    · simp only [hx]
      exact append_ne_empty _ _ (by decide)
    · exact absurd hx (hg _ _)

/-- C4: for a well-formed (non-empty) question, both orchestrators return a
non-empty `answer` string even when the generator raises on every call;
generator and web-search failures are converted into user-visible answer
strings.  (That no exception escapes is reflected in the embedding itself:
`kbQuery` and `rag_query` are total functions into plain results — every
collaborator `Except.error` is caught and converted.) -/
theorem C4_graceful_degradation (d : KbDeps) (d2 : RagDeps) (question : String)
    (n n2 : Nat) (su sp : Bool) (_hq : question ≠ "")
    (hgk : ∀ p t, d.generate p ≠ Except.ok t)
    (hgr : ∀ p t, d2.generate p ≠ Except.ok t) :
    (kbQuery d question n su sp).1.answer ≠ ""
    ∧ (rag_query d2 question n2).1.answer ≠ "" := by
  constructor
  · unfold kbQuery
    repeat' (first | split | dsimp only)
    all_goals try exact append_ne_empty _ _ (by decide)
    all_goals try decide
    all_goals try assumption
    all_goals exact absurd (by assumption) (hgk _ _)
  · unfold rag_query
    dsimp only
    split
    · exact ggr_answer_ne d2 question hgr
    · exact generate_response_ne d2 question _ hgr

/-- Concrete collaborators for the C4 witness: the generator raises on
every call. -/
def kbDepsGenFail : KbDeps :=
  { geminiKey := true, serpOk := false, userCount := 0, policyCount := 0,
    userQuery := fun _ _ => Except.ok ⟨[], []⟩,
    policyQuery := fun _ _ => Except.ok ⟨[], []⟩,
    webSnippets := fun _ => Except.error "no web",
    generate := fun _ => Except.error "generator down" }

/-- Concrete `RagDeps` for the C4 witness. -/
def ragDepsGenFail : RagDeps :=
  { geminiKey := true, serpOk := false,
    collectionQuery := fun _ _ => Except.ok [["chunk"]],
    webSnippets := fun _ => Except.error "no web",
    generate := fun _ => Except.error "generator down" }

theorem C4_graceful_degradation_witness :
    (kbQuery kbDepsGenFail "my loan balance" 5 true true).1.answer ≠ ""
    ∧ (rag_query ragDepsGenFail "my loan balance" 3).1.answer ≠ "" :=
  C4_graceful_degradation kbDepsGenFail ragDepsGenFail "my loan balance" 5 3 true true
    (by decide)
    (fun p t h => by simp [kbDepsGenFail] at h)
    (fun p t h => by simp [ragDepsGenFail] at h)

/-! ## Claim C5 -/

/-- Concrete collaborators reaching the successful local-context path of
`MortgageKnowledgeBase.query`. -/
def kbDepsLocal : KbDeps :=
  { geminiKey := true, serpOk := true, userCount := 1, policyCount := 0,
    userQuery := fun _ _ =>
      Except.ok ⟨["user chunk"], [⟨some "loan.pdf", some "doc1", some 0, some 1⟩]⟩,
    policyQuery := fun _ _ => Except.ok ⟨[], []⟩,
    webSnippets := fun _ => Except.ok [],
    generate := fun _ => Except.ok "local answer" }

/-- C5 counterexample: the claim says every result carries all four fields
`{answer, sources, documents_found, web_search_used}`, but on the successful
local-context path `MortgageKnowledgeBase.query` omits the
`web_search_used` key (modelled as `none`), and `rag_query` never emits a
`documents_found` key on any path. -/
theorem C5_output_contract_counterexample :
    (kbQuery kbDepsLocal "my loan balance" 5 true true).1.answer = "local answer"
    ∧ (kbQuery kbDepsLocal "my loan balance" 5 true true).1.web_search_used = none
    ∧ (rag_query ragDepsLocal "my loan balance" 3).1.documents_found = none := by
  decide

/-- C5 amended: `MortgageKnowledgeBase.query` always returns `answer`,
`sources` and `documents_found`, but emits `web_search_used` only on the two
empty-context fallback returns — on which `sources` is empty and
`documents_found` is 0; `rag_query` always returns `answer`, `sources`,
`context_used` and `web_search_used` but never `documents_found`; and
`sources` is empty whenever the web/unscoped fallback path was taken. -/
theorem C5_output_contract_amended (d : KbDeps) (d2 : RagDeps) (q : String)
    (n n2 : Nat) (su sp : Bool) :
    ((kbQuery d q n su sp).1.web_search_used ≠ none →
        (kbQuery d q n su sp).1.sources = []
          ∧ (kbQuery d q n su sp).1.documents_found = 0)
    ∧ (rag_query d2 q n2).1.documents_found = none
    ∧ ((rag_query d2 q n2).1.web_search_used = true →
        (rag_query d2 q n2).1.sources = []) := by
  refine ⟨?_, ?_, ?_⟩
  · unfold kbQuery
    repeat' (first | split | dsimp only)
    all_goals intro h
    all_goals first
      | exact ⟨rfl, rfl⟩
      | exact absurd rfl h
  · unfold rag_query
    dsimp only
    split <;> rfl
  · unfold rag_query
    dsimp only
    split
    · intro _; rfl
    · intro h; exact absurd h Bool.false_ne_true

theorem C5_output_contract_amended_witness :
    (kbQuery kbDepsEmpty "my loan balance" 5 true true).1.sources = []
    ∧ (kbQuery kbDepsEmpty "my loan balance" 5 true true).1.documents_found = 0 :=
  (C5_output_contract_amended kbDepsEmpty ragDepsEmpty "my loan balance" 5 3 true true).1
    (by decide)

/-! ## Claim C10 -/

/-- C10: when both collections return hits, the merged sources list is the
user-collection sources followed by the policy-collection sources, each in
store order; the context handed to generation is likewise user chunks then
policy chunks (visible through `context_snippets` and `documents_found`). -/
theorem C10_merge_order (d : KbDeps) (q : String) (n : Nat)
    (ru : ChromaHits UserMeta) (rp : ChromaHits PolicyMeta)
    (hcu : 0 < d.userCount) (hcp : 0 < d.policyCount)
    (hu : d.userQuery q n = Except.ok ru) (hp : d.policyQuery q n = Except.ok rp)
    (hru : ru.documents ≠ []) (hrp : rp.documents ≠ [])
    (hkey : d.geminiKey = true) (t : String)
    (hgen : d.generate (kb_prompt
        (String.intercalate "\n\n" (ru.documents ++ rp.documents)) q)
      = Except.ok t) :
    (kbQuery d q n true true).1.sources
        = ru.metadatas.map formatUserSource ++ rp.metadatas.map formatPolicySource
    ∧ (kbQuery d q n true true).1.documents_found
        = ru.documents.length + rp.documents.length
    ∧ (kbQuery d q n true true).1.context_snippets
        = some ((ru.documents ++ rp.documents).take 2)
    ∧ (kbQuery d q n true true).1.answer = t := by
  have hcu' : (true && decide (0 < d.userCount)) = true := by simp [hcu]
  have hcp' : (true && decide (0 < d.policyCount)) = true := by simp [hcp]
  have hruE : ru.documents.isEmpty = false := by simp [List.isEmpty_iff, hru]
  have hrpE : rp.documents.isEmpty = false := by simp [List.isEmpty_iff, hrp]
  have hAll : (ru.documents ++ rp.documents).isEmpty = false := by
    simp [List.isEmpty_iff, hru]
  unfold kbQuery
  simp only [hcu', hcp', if_true, hu, hp, hruE, hrpE, Bool.not_false, hAll,
    hkey, Bool.not_true, Bool.false_eq_true, if_false, hgen]
  simp

/-- Concrete collaborators for the C10 witness: two user hits and one
policy hit. -/
def kbDepsBoth : KbDeps :=
  { geminiKey := true, serpOk := false, userCount := 2, policyCount := 3,
    userQuery := fun _ _ =>
      Except.ok ⟨["user chunk A", "user chunk B"],
        [⟨some "loan.pdf", some "d1", some 0, some 2⟩,
         ⟨some "loan.pdf", some "d1", some 1, some 2⟩]⟩,
    policyQuery := fun _ _ =>
      Except.ok ⟨["policy chunk"], [⟨some "fannie.pdf", some 7, some "fannie.pdf"⟩]⟩,
    webSnippets := fun _ => Except.error "off",
    generate := fun _ => Except.ok "merged answer" }

theorem C10_merge_order_witness :
    (kbQuery kbDepsBoth "my loan balance" 5 true true).1.sources
      = [Source.user_document "loan.pdf" "d1" "1/2",
         Source.user_document "loan.pdf" "d1" "2/2"]
        ++ [Source.policy_document "fannie.pdf" (some 7) "fannie.pdf"] :=
  (C10_merge_order kbDepsBoth "my loan balance" 5
    ⟨["user chunk A", "user chunk B"],
      [⟨some "loan.pdf", some "d1", some 0, some 2⟩,
       ⟨some "loan.pdf", some "d1", some 1, some 2⟩]⟩
    ⟨["policy chunk"], [⟨some "fannie.pdf", some 7, some "fannie.pdf"⟩]⟩
    (by decide) (by decide) rfl rfl (by decide) (by decide) rfl
    "merged answer" rfl).1

/-! ## Claim C6: the TTS response cache
(`MortgageKnowledgeBase.text_to_speech`, lines 407-463) -/

/-- Collaborators of `text_to_speech`. -/
structure TTSDeps where
  /-- The elevenlabs package imported. -/
  elevenlabsOk : Bool
  /-- `ELEVENLABS_API_KEY` set. -/
  apiKey : Bool
  /-- `hashlib.md5(text.encode()).hexdigest()[:16]`: an opaque pure function
  of the text. -/
  md5hex16 : String → String
  /-- `client.text_to_speech.convert(text, voice_id, ...)` joined to audio
  bytes (modelled as `List Nat`). -/
  producer : String → String → Except String (List Nat)

/-- The cache-file name `f"{text_hash}_{voice_id}.mp3"` (line 434): a
deterministic key computed from `(content, voice config)`. -/
def tts_cache_key (hash : String → String) (text voice_id : String) : String :=
  hash text ++ "_" ++ voice_id ++ ".mp3"

/-- Embeds `MortgageKnowledgeBase.text_to_speech`.  The `audio_cache`
directory is modelled as a map from file name to stored bytes.  Returns
`(result, new cache state, whether the producer was invoked)`: on a cache
hit the stored payload is returned and the producer is not invoked; on a
miss the producer runs and, on success, its output is stored under the
computed key. -/
def text_to_speech (d : TTSDeps) (cache : String → Option (List Nat))
    (text voice_id : String) :
    Option (List Nat) × (String → Option (List Nat)) × Bool :=
  if !d.elevenlabsOk then (none, cache, false)
  else if !d.apiKey then (none, cache, false)
  else
    let key := tts_cache_key d.md5hex16 text voice_id
    match cache key with
    | some audio => (some audio, cache, false)
    | none =>
      match d.producer text voice_id with
      | Except.error _ => (none, cache, true)
      | Except.ok audio =>
        (some audio, fun k => if k = key then some audio else cache k, true)

theorem tts_cache_key_ne (hash : String → String) (text v1 v2 : String)
    (hne : v1 ≠ v2) :
    tts_cache_key hash text v1 ≠ tts_cache_key hash text v2 := by
  intro h
  apply hne
  unfold tts_cache_key at h
  have hd := congrArg String.data h
  simp only [String.data_append] at hd
  have h1 := List.append_cancel_right hd
  have h2 := List.append_cancel_left h1
  cases v1
  cases v2
  exact congrArg String.mk (by simpa using h2)

/-- C6: the cached synthesis computes a deterministic key from
`(content, voice config)`; a second call with identical arguments returns
the stored payload without invoking the producer; a call with the same
content but a different voice computes a different key and invokes the
producer again. -/
theorem C6_cache_correctness (d : TTSDeps) (cache : String → Option (List Nat))
    (text v1 v2 : String)
    (hel : d.elevenlabsOk = true) (hak : d.apiKey = true)
    (hm1 : cache (tts_cache_key d.md5hex16 text v1) = none)
    (hm2 : cache (tts_cache_key d.md5hex16 text v2) = none)
    (hne : v1 ≠ v2)
    (audio : List Nat) (hprod : d.producer text v1 = Except.ok audio) :
    (text_to_speech d cache text v1).2.2 = true
    ∧ (text_to_speech d (text_to_speech d cache text v1).2.1 text v1).2.2 = false
    ∧ (text_to_speech d (text_to_speech d cache text v1).2.1 text v1).1 = some audio
    ∧ tts_cache_key d.md5hex16 text v1 ≠ tts_cache_key d.md5hex16 text v2
    ∧ (text_to_speech d (text_to_speech d cache text v1).2.1 text v2).2.2 = true := by
  have hkne : tts_cache_key d.md5hex16 text v1 ≠ tts_cache_key d.md5hex16 text v2 :=
    tts_cache_key_ne _ _ _ _ hne
  have hkne2 : tts_cache_key d.md5hex16 text v2 ≠ tts_cache_key d.md5hex16 text v1 :=
    Ne.symm hkne
  refine ⟨?_, ?_, ?_, hkne, ?_⟩
  · simp [text_to_speech, hel, hak, hm1, hprod]
  · simp [text_to_speech, hel, hak, hm1, hprod]
  · simp [text_to_speech, hel, hak, hm1, hprod]
  · simp only [text_to_speech, hel, hak, Bool.not_true, Bool.false_eq_true,
      if_false, hm1, hprod]
    simp only [hkne2, if_neg, hm2]
    rcases hp2 : d.producer text v2 with e | a <;> simp [hp2, hkne2, hm2]

/-- Concrete collaborators for the C6 witness. -/
def ttsDeps0 : TTSDeps :=
  { elevenlabsOk := true, apiKey := true,
    md5hex16 := fun _ => "5d41402abc4b2a76",
    producer := fun _ _ => Except.ok [1, 2, 3] }

theorem C6_cache_correctness_witness :
    (text_to_speech ttsDeps0 (fun _ => none) "hello" "v1").2.2 = true
    ∧ (text_to_speech ttsDeps0
        (text_to_speech ttsDeps0 (fun _ => none) "hello" "v1").2.1 "hello" "v1").2.2 = false
    ∧ (text_to_speech ttsDeps0
        (text_to_speech ttsDeps0 (fun _ => none) "hello" "v1").2.1 "hello" "v1").1
        = some [1, 2, 3]
    ∧ tts_cache_key ttsDeps0.md5hex16 "hello" "v1" ≠ tts_cache_key ttsDeps0.md5hex16 "hello" "v2"
    ∧ (text_to_speech ttsDeps0
        (text_to_speech ttsDeps0 (fun _ => none) "hello" "v1").2.1 "hello" "v2").2.2 = true :=
  C6_cache_correctness ttsDeps0 (fun _ => none) "hello" "v1" "v2"
    rfl rfl rfl rfl (by decide) [1, 2, 3] rfl

/-! ## Claim C9: the chunk-indexing loops.
`chunkOp i c` models `embedding_model.encode(c)` followed by
`collection.upsert(...)` for the chunk at index `i`; `Except.error` models
an exception from either step. -/

/-- The per-chunk loop of `load_documents_from_folder` (lines 172-186):
each chunk sits in its own `try`/`except`, so a failing chunk is skipped
and the loop continues with the rest.  Returns the indices successfully
upserted, counting from the start index. -/
def loadFolderChunksGo (chunkOp : Nat → String → Except String Unit) :
    Nat → List String → List Nat
  | _, [] => []
  | i, c :: rest =>
    match chunkOp i c with
    | Except.ok _ => i :: loadFolderChunksGo chunkOp (i + 1) rest
    | Except.error _ => loadFolderChunksGo chunkOp (i + 1) rest

/-- The chunk loop of `load_documents_from_folder` for one document. -/
def load_folder_chunks (chunkOp : Nat → String → Except String Unit)
    (chunks : List String) : List Nat :=
  loadFolderChunksGo chunkOp 0 chunks

/-- The chunk loop of `add_user_document` (lines 210-232) — identical in
structure to `RAGDocumentService.add_document` (lines 97-132): one `try`
wraps the whole loop, so the first failing chunk aborts the remaining
upserts and the function returns `False`.  Returns
`(returned flag, indices upserted)`. -/
def addUserDocGo (chunkOp : Nat → String → Except String Unit) :
    Nat → List String → Bool × List Nat
  | _, [] => (true, [])
  | i, c :: rest =>
    match chunkOp i c with
    | Except.error _ => (false, [])
    | Except.ok _ =>
      let r := addUserDocGo chunkOp (i + 1) rest
      (r.1, i :: r.2)

/-- Embeds the chunk loop of `MortgageKnowledgeBase.add_user_document` (and
of `RAGDocumentService.add_document`, which has the same error handling). -/
def add_user_document (chunkOp : Nat → String → Except String Unit)
    (chunks : List String) : Bool × List Nat :=
  addUserDocGo chunkOp 0 chunks

/-- An operation that fails exactly on chunk index 0. -/
def failFirstOp : Nat → String → Except String Unit :=
  fun i _ => if i = 0 then Except.error "boom" else Except.ok ()

/-- C9 counterexample: the claim says a failure on one chunk causes only
that chunk to be skipped and all remaining chunks are still indexed, but in
`add_user_document` (and `add_document`) a failure on chunk 0 of 2 aborts
the loop: chunk 1, whose own operation succeeds, is never upserted. -/
theorem C9_partial_failure_counterexample :
    (failFirstOp 1 "b").isOk = true
    ∧ add_user_document failFirstOp ["a", "b"] = (false, []) := by decide

theorem loadFolderChunksGo_eq (chunkOp : Nat → String → Except String Unit) :
    ∀ (chunks : List String) (s : Nat),
      loadFolderChunksGo chunkOp s chunks
        = ((List.enumFrom s chunks).filter
            (fun p => (chunkOp p.1 p.2).isOk)).map Prod.fst := by
  intro chunks
  induction chunks with
  | nil => intro s; rfl
  | cons c rest ih =>
    intro s
    rcases hop : chunkOp s c with e | u <;>
      simp [loadFolderChunksGo, List.enumFrom, List.filter, hop, Except.isOk,
        Except.toBool, ih (s + 1)]

theorem addUserDocGo_eq (chunkOp : Nat → String → Except String Unit) :
    ∀ (chunks : List String) (s : Nat),
      addUserDocGo chunkOp s chunks
        = (((List.enumFrom s chunks).takeWhile
              (fun p => (chunkOp p.1 p.2).isOk)).length == chunks.length,
           ((List.enumFrom s chunks).takeWhile
              (fun p => (chunkOp p.1 p.2).isOk)).map Prod.fst) := by
  intro chunks
  induction chunks with
  | nil => intro s; rfl
  | cons c rest ih =>
    intro s
    rcases hop : chunkOp s c with e | u <;>
      simp [addUserDocGo, List.enumFrom, List.takeWhile, hop, Except.isOk,
        Except.toBool, ih (s + 1)]

/-- C9 amended: partial-failure tolerance holds for the bulk policy loader —
`load_documents_from_folder` indexes exactly the chunks whose own
embed+upsert succeeds, so one bad chunk never aborts the document — while
`add_user_document` (and `add_document`) stop at the first failing chunk:
they index exactly the chunks strictly before the first failure and return
`False` whenever any chunk failed. -/
theorem C9_partial_failure_amended (chunkOp : Nat → String → Except String Unit)
    (chunks : List String) :
    load_folder_chunks chunkOp chunks
      = ((List.enumFrom 0 chunks).filter
          (fun p => (chunkOp p.1 p.2).isOk)).map Prod.fst
    ∧ add_user_document chunkOp chunks
      = (((List.enumFrom 0 chunks).takeWhile
            (fun p => (chunkOp p.1 p.2).isOk)).length == chunks.length,
         ((List.enumFrom 0 chunks).takeWhile
            (fun p => (chunkOp p.1 p.2).isOk)).map Prod.fst) :=
  ⟨loadFolderChunksGo_eq chunkOp chunks 0, addUserDocGo_eq chunkOp chunks 0⟩

end HackUTA
